import Mathlib

/-!
Verification of the MCF template engine (`scripts/template-engine.py`).

The Python source is shallowly embedded: dictionaries parsed from template
JSON become structures with `Option` fields mirroring `.get` access,
`input()` becomes an explicit list of raw strings, `subprocess.run` and
`command -v` become an oracle `ExecEnv`, and the filesystem becomes an
explicit `World` of directories and files.  Python exceptions that the code
does not catch are modelled with `Except PyExc`.
-/

/-- Python exceptions that can escape the engine uncaught. -/
inductive PyExc where
  | fileNotFound (msg : String)
  | jsonDecode (msg : String)
  | keyError (key : String)
  | eofError
deriving DecidableEq, Repr

/-! ### String helpers (embeddings of `str.strip` and `str.replace`) -/

/-- Whitespace stripped by Python's `str.strip()` (ASCII subset). -/
def isPySpace (c : Char) : Bool :=
  c == ' ' || c == '\t' || c == '\n' || c == '\r' || c == Char.ofNat 11 || c == Char.ofNat 12

/-- Embedding of Python `str.strip()`. -/
def pyStrip (s : String) : String :=
  ⟨((s.data.dropWhile isPySpace).reverse.dropWhile isPySpace).reverse⟩

/-- Boolean list-prefix test. -/
def listPrefixOf : List Char → List Char → Bool
  | [], _ => true
  | _ :: _, [] => false
  | a :: as, b :: bs => a == b && listPrefixOf as bs

/-- Fuelled worker for `pyReplace`: replaces non-overlapping occurrences of
`pat` left to right.  Each step consumes at least one character, so fuel
equal to the length of the subject suffices. -/
def replaceAllF : Nat → List Char → List Char → List Char → List Char
  | 0, _, _, s => s
  | _ + 1, _, _, [] => []
  | fuel + 1, pat, rep, c :: rest =>
    if !pat.isEmpty && listPrefixOf pat (c :: rest) then
      rep ++ replaceAllF fuel pat rep (List.drop (pat.length - 1) rest)
    else
      c :: replaceAllF fuel pat rep rest

/-- Embedding of Python `str.replace` (for the nonempty patterns the engine
uses; the empty pattern, which the engine never produces, is a no-op here). -/
def pyReplace (s pat rep : String) : String :=
  ⟨replaceAllF s.data.length pat.data rep.data s.data⟩

/-! ### Substitution engine (`TemplateEngine.substitute_variables`) -/

/-- The placeholder token for variable `n`: two braces around the name. -/
def varToken (n : String) : String := "\x7b\x7b" ++ n ++ "\x7d\x7d"

/-- Embedding of `substitute_variables`: one `str.replace` pass per variable,
in mapping (insertion) order. -/
def substituteVariables (text : String) (vars : List (String × String)) : String :=
  vars.foldl (fun acc nv => pyReplace acc (varToken nv.1) nv.2) text

/-! ### Regular expressions

A small fragment of Python regexes, sufficient for the patterns appearing
in the claims: character classes, `+`, concatenation, and the `$` anchor.
`re.match` anchors at the start only (possibly matching a proper prefix);
`re.fullmatch` requires the whole string to match. -/

inductive Regex where
  | eps
  | chcls (p : Char → Bool)
  | plus (p : Char → Bool)
  | seq (r1 r2 : Regex)
  | eos

/-- Remainders after consuming one-or-more `p`-characters. -/
def plusRems (p : Char → Bool) : List Char → List (List Char)
  | [] => []
  | c :: s => if p c then s :: plusRems p s else []

/-- All remainders left after `r` matches some prefix of `s`. -/
def reRems : Regex → List Char → List (List Char)
  | .eps, s => [s]
  | .chcls _, [] => []
  | .chcls p, c :: s => if p c then [s] else []
  | .plus p, s => plusRems p s
  | .seq r1 r2, s => ((reRems r1 s).map (reRems r2)).flatten
  | .eos, s => if s.isEmpty then [[]] else []

/-- Embedding of Python `re.match`: the pattern matches at position 0,
possibly covering only a prefix of the string. -/
def pyMatch (r : Regex) (s : String) : Bool :=
  !(reRems r s.data).isEmpty

/-- Embedding of Python `re.fullmatch`: the pattern consumes the entire
string. -/
def pyFullmatch (r : Regex) (s : String) : Bool :=
  (reRems r s.data).any (fun rem => rem.isEmpty)

/-! ### Variable collection (`TemplateEngine.collect_variables`) -/

/-- One entry of a template's `variables` array.  Field access in the source:
`var_config['name']` (required — this embedding only models entries carrying
a name), `var_config.get('prompt', ...)`, `var_config.get('default', '')`,
`var_config.get('options', [])`, `'validation' in var_config`. -/
structure VariableSpec where
  name : String
  prompt : Option String
  default : String
  options : List String
  validation : Option Regex

/-- Resolution of a raw `input()` line: strip it, and fall back to the
default only when the stripped value is empty and the default is non-empty
(Python truthiness of both strings). -/
def resolveRaw (spec : VariableSpec) (raw : String) : String :=
  let value := pyStrip raw
  if value == "" && spec.default != "" then spec.default else value

/-- The inner `while True` prompt loop for one variable: consume raw values
until one passes the checks; an exhausted input stream models `input()`
raising `EOFError`. -/
def collectValue (spec : VariableSpec) : List String → Except PyExc (String × List String)
  | [] => .error .eofError
  | raw :: rest =>
    let value := resolveRaw spec raw
    if value == "" then collectValue spec rest
    else if !spec.options.isEmpty && !spec.options.contains value then collectValue spec rest
    else
      match spec.validation with
      | some pat => if !pyMatch pat value then collectValue spec rest else .ok (value, rest)
      | none => .ok (value, rest)

/-- The `for var_config in template['variables']` loop, threading the input
stream through the per-variable prompt loops. -/
def collectLoop : List VariableSpec → List String → Except PyExc (List (String × String) × List String)
  | [], inputs => .ok ([], inputs)
  | spec :: specs, inputs =>
    match collectValue spec inputs with
    | .error e => .error e
    | .ok (v, rest) =>
      match collectLoop specs rest with
      | .error e => .error e
      | .ok (m, rest') => .ok ((spec.name, v) :: m, rest')

/-! ### Steps and the filesystem model -/

/-- One entry of a template's `steps` array; every field is read with `.get`
or direct indexing on the parsed dictionary, hence `Option`. -/
structure Step where
  type : Option String
  description : Option String
  command : Option String
  path : Option String
  content : Option String
deriving DecidableEq, Repr

/-- Result of `subprocess.run` on a command string, supplied by the
environment: a completed process with its exit status and captured output,
a `TimeoutExpired`, or some other launch exception. -/
inductive CmdOutcome where
  | exited (code : Int) (stdout stderr : String)
  | timeout
  | exc (msg : String)
deriving DecidableEq, Repr

/-- External behaviour the engine depends on: what `subprocess.run` returns
for each command line (also used for `command -v` prerequisite probes). -/
structure ExecEnv where
  run : String → CmdOutcome

/-- The modelled filesystem: the set of directories that exist and the
files with their contents. Command steps' external effects are opaque and
not tracked here. -/
structure World where
  dirs : List String
  files : List (String × String)
deriving DecidableEq, Repr

def world0 : World := ⟨[], []⟩

/-- Embedding of `Path.is_absolute()` (POSIX). -/
def isAbsolutePath (p : String) : Bool :=
  match p.data with
  | [] => false
  | c :: _ => c == '/'

/-- Embedding of `current_dir / path` applied when the path is relative. -/
def resolvePath (cur p : String) : String :=
  if isAbsolutePath p then p else cur ++ "/" ++ p

/-- Split a path into `/`-separated segments. -/
def splitSegs : List Char → List (List Char)
  | [] => [[]]
  | c :: rest =>
    if c == '/' then [] :: splitSegs rest
    else
      match splitSegs rest with
      | [] => [[c]]
      | seg :: segs => (c :: seg) :: segs

/-- Join segments back with `/`. -/
def joinSegs : List (List Char) → List Char
  | [] => []
  | [s] => s
  | s :: rest => s ++ '/' :: joinSegs rest

/-- All non-empty ancestor paths of `p`, including `p` itself. -/
def pathPrefixes (p : String) : List String :=
  (((List.range (splitSegs p.data).length).map
      (fun k => String.mk (joinSegs ((splitSegs p.data).take (k + 1))))).filter
    (fun q => q != ""))

/-- Embedding of `Path(p).parent` (empty string stands for `.` or `/`,
which always exist). -/
def parentOf (p : String) : String :=
  String.mk (joinSegs (splitSegs p.data).dropLast)

/-- Does `p` exist as a file in the world? -/
def isFileIn (w : World) (p : String) : Bool :=
  w.files.any (fun e => e.1 == p)

/-- Embedding of `mkdir(parents=True, exist_ok=True)`: fails exactly when a
component of the path already exists as a regular file. -/
def mkdirParents (w : World) (p : String) : Option World :=
  if (pathPrefixes p).any (fun q => isFileIn w q) then none
  else some ⟨pathPrefixes p ++ w.dirs, w.files⟩

/-- Embedding of `full_path.parent.mkdir(parents=True, exist_ok=True)`
followed by `open(full_path, 'w')` + `write`: overwrites unconditionally,
fails when a parent component is a file or the target is a directory. -/
def writeFileW (w : World) (p content : String) : Option World :=
  match (if parentOf p == "" then some w else mkdirParents w (parentOf p)) with
  | none => none
  | some w' =>
    if w'.dirs.contains p then none
    else some ⟨w'.dirs, (p, content) :: w'.files.filter (fun e => e.1 != p)⟩

/-- Contents of file `p` in the world, if present. -/
def lookupFile (w : World) (p : String) : Option String :=
  (w.files.find? (fun e => e.1 == p)).map (fun e => e.2)

/-! ### Step execution (`TemplateEngine.execute_step`) -/

/-- Embedding of `execute_step`.  `step.get('type', 'command')` dispatches;
missing `command`/`path` keys raise `KeyError` (direct indexing in the
source); command/directory/file failures are caught and become `False`;
unknown step types warn and fall through to `return True`. -/
def executeStep (env : ExecEnv) (step : Step) (vars : List (String × String))
    (cur : String) (w : World) : Except PyExc (Bool × World) :=
  let stepType := step.type.getD ("command")
  if stepType == "command" then
    match step.command with
    | none => .error (.keyError ("command"))
    | some c =>
      match env.run (substituteVariables c vars) with
      | .exited code _ _ => if code != 0 then .ok (false, w) else .ok (true, w)
      | .timeout => .ok (false, w)
      | .exc _ => .ok (false, w)
  else if stepType == "directory" then
    match step.path with
    | none => .error (.keyError ("path"))
    | some p =>
      match mkdirParents w (resolvePath cur (substituteVariables p vars)) with
      | some w' => .ok (true, w')
      | none => .ok (false, w)
  else if stepType == "file" then
    match step.path with
    | none => .error (.keyError ("path"))
    | some p =>
      match writeFileW w (resolvePath cur (substituteVariables p vars))
          (substituteVariables (step.content.getD ("")) vars) with
      | some w' => .ok (true, w')
      | none => .ok (false, w)
  else
    .ok (true, w)

/-- The `for i, step in enumerate(...)` loop of `execute_template`: run the
steps in order, returning `False` at the first failing step and propagating
any uncaught exception. -/
def runSteps (env : ExecEnv) (vars : List (String × String)) (cur : String) :
    List Step → World → Except PyExc (Bool × World)
  | [], w => .ok (true, w)
  | s :: rest, w =>
    match executeStep env s vars cur w with
    | .error e => .error e
    | .ok (false, w') => .ok (false, w')
    | .ok (true, w') => runSteps env vars cur rest w'

/-! ### Template documents and the Template Store -/

/-- A parsed template document.  Every field the source reads with `.get`
or a containment check is an `Option`; `template['name']` is indexed
directly in several places, so a `none` name raises `KeyError` there.
`filename` models the `template['filename'] = template_file.stem`
assignment performed by `list_templates`. -/
structure TemplateJson where
  name : Option String
  description : Option String
  category : Option String
  -- `variables` is a reserved token in Lean, hence the primed field name.
  variables' : Option (List VariableSpec)
  prerequisites : Option (List String)
  steps : Option (List Step)
  postInstall : Option (List String)
  nextSteps : Option (List String)
  filename : Option String

/-- The on-disk template directory: whether it exists, and each `*.json`
file's stem paired with the result of `json.load` on it (in glob order). -/
structure TemplateStore where
  dirExists : Bool
  entries : List (String × Except String TemplateJson)

/-- The `template['filename'] = template_file.stem` assignment. -/
def setFilename (t : TemplateJson) (stem : String) : TemplateJson :=
  ⟨t.name, t.description, t.category, t.variables', t.prerequisites, t.steps,
    t.postInstall, t.nextSteps, some stem⟩

/-- One iteration of the `glob` loop in `list_templates`: a parsed file
contributes a template tagged with its stem; a `JSONDecodeError` is printed
as a warning and the file is skipped. -/
def parseEntry (e : String × Except String TemplateJson) : Option TemplateJson :=
  match e.2 with
  | .ok t => some (setFilename t e.1)
  | .error _ => none

/-- The sort key of `list_templates`: `x.get('name', '')`. -/
def nameKey (t : TemplateJson) : String := t.name.getD ("")

/-- The ordering by which `sorted(..., key=lambda x: x.get('name',''))`
sorts listed templates. -/
def tmplLE (a b : TemplateJson) : Prop := nameKey a ≤ nameKey b

instance : DecidableRel tmplLE := fun a b => inferInstanceAs (Decidable (nameKey a ≤ nameKey b))

instance : IsTotal TemplateJson tmplLE := ⟨fun a b => le_total (nameKey a) (nameKey b)⟩

instance : IsTrans TemplateJson tmplLE := ⟨fun _ _ _ h1 h2 => le_trans h1 h2⟩

/-- Embedding of `list_templates`: missing directory gives `[]`; parse
failures are skipped; the survivors are sorted by name (Python `sorted` is
stable, as is insertion sort with a non-strict relation, so the two agree
exactly). -/
def listTemplates (store : TemplateStore) : List TemplateJson :=
  if store.dirExists then
    List.insertionSort tmplLE (store.entries.filterMap parseEntry)
  else []

/-- Association lookup of a stem among the directory entries. -/
def lookupStore : List (String × Except String TemplateJson) → String → Option (Except String TemplateJson)
  | [], _ => none
  | e :: rest, t => if e.1 == t then some e.2 else lookupStore rest t

/-- Embedding of `load_template`: a missing file raises
`FileNotFoundError`; a present file is `json.load`ed, whose failure raises
`json.JSONDecodeError` (uncaught here). -/
def loadTemplate (store : TemplateStore) (t : String) : Except PyExc TemplateJson :=
  if store.dirExists then
    match lookupStore store.entries t with
    | none => .error (.fileNotFound t)
    | some (.error msg) => .error (.jsonDecode msg)
    | some (.ok tm) => .ok tm
  else .error (.fileNotFound t)

/-! ### The Runner (`TemplateEngine.execute_template`) and CLI (`main`) -/

/-- Embedding of `collect_variables` at template level: absent `variables`
key returns the empty mapping before anything is printed; otherwise the
herald line indexes `template['name']` (a `KeyError` when absent) and the
per-variable loop runs. -/
def collectVariables (t : TemplateJson) (inputs : List String) :
    Except PyExc (List (String × String) × List String) :=
  match t.variables' with
  | none => .ok ([], inputs)
  | some specs =>
    match t.name with
    | none => .error (.keyError ("name"))
    | some _ => collectLoop specs inputs

/-- Embedding of `check_prerequisite`: run `command -v <prereq>` and test
for exit status zero; any exception gives `False` via the bare `except`. -/
def checkPrerequisite (env : ExecEnv) (p : String) : Bool :=
  match env.run ("command -v " ++ p) with
  | .exited code _ _ => code == 0
  | _ => false

/-- The prerequisite gate of `execute_template`: absent key checks nothing;
otherwise every declared prerequisite must resolve. -/
def checkPrereqs (env : ExecEnv) : Option (List String) → Bool
  | none => true
  | some ps => ps.all (checkPrerequisite env)

/-- Embedding of `execute_template`.  Only `FileNotFoundError` from loading
is caught (printed, `return False`); a `JSONDecodeError` propagates.  Then
variables are collected, the herald indexes `template['name']`,
prerequisites gate the run, and the steps execute fail-fast.  The
post-install `os.system` calls and the next-steps display have no modelled
effect on the `World` and never abort. -/
def executeTemplate (store : TemplateStore) (tname : String) (inputs : List String)
    (env : ExecEnv) (cwd : String) (w : World) : Except PyExc (Bool × World) :=
  match loadTemplate store tname with
  | .error (.fileNotFound _) => .ok (false, w)
  | .error e => .error e
  | .ok t =>
    match collectVariables t inputs with
    | .error e => .error e
    | .ok (vars, _) =>
      match t.name with
      | none => .error (.keyError ("name"))
      | some _ =>
        if !checkPrereqs env t.prerequisites then .ok (false, w)
        else
          match runSteps env vars cwd (t.steps.getD []) w with
          | .error e => .error e
          | .ok (ok, w') => .ok (ok, w')

/-- Embedding of `main`: dispatch on `sys.argv[1:]`.  The return value
records `execute_template`'s boolean for `init` (the source discards it);
`main` itself never calls `sys.exit`, so a normal return exits with
status 0 and only an uncaught exception exits non-zero. -/
def mainCli (store : TemplateStore) (argv : List String) (inputs : List String)
    (env : ExecEnv) (cwd : String) (w : World) : Except PyExc (Option Bool) :=
  match argv with
  | [] => .ok none
  | cmd :: rest =>
    if cmd == "list" then
      if (listTemplates store).all (fun t => t.name.isSome) then .ok none
      else .error (.keyError ("name"))
    else if cmd == "init" then
      match rest with
      | [] => .ok none
      | t :: _ =>
        match executeTemplate store t inputs env cwd w with
        | .error e => .error e
        | .ok (b, _) => .ok (some b)
    else if cmd == "info" then
      match rest with
      | [] => .ok none
      | t :: _ =>
        match loadTemplate store t with
        | .error (.fileNotFound _) => .ok none
        | .error e => .error e
        | .ok tm => if tm.name.isSome then .ok none else .error (.keyError ("name"))
    else .ok none

/-- The process exit status of a `main` invocation: 0 on normal return,
1 when an exception escapes (CPython's behaviour for an uncaught
exception). -/
def exitCode {α : Type} (r : Except PyExc α) : Nat :=
  match r with
  | .ok _ => 0
  | .error _ => 1

/-! ### Concrete fixtures used by witnesses and counterexamples -/

/-- An environment in which every spawned process succeeds. -/
def envOk : ExecEnv := ⟨fun _ => .exited 0 ("") ("")⟩

/-- An environment in which every spawned process exits with status 1. -/
def envFail : ExecEnv := ⟨fun _ => .exited 1 ("") ("err")⟩

/-- An environment in which every spawned process hits the timeout. -/
def envTO : ExecEnv := ⟨fun _ => .timeout⟩

/-- An existing but empty template directory. -/
def store0 : TemplateStore := ⟨true, []⟩

/-- A directory holding a single malformed template file `bad.json`. -/
def storeBad : TemplateStore := ⟨true, [("bad", .error ("boom"))]⟩

/-- A variable with the unanchored validation pattern `[a-z]+`. -/
def vLax : VariableSpec := ⟨"v", none, "", [], some (.plus Char.isLower)⟩

/-- A variable with the anchored validation pattern `^[a-z]+$` (the leading
anchor is implicit under `re.match`). -/
def vAnchored : VariableSpec := ⟨"app", none, "", [], some (.seq (.plus Char.isLower) .eos)⟩

/-- A variable constrained to the options `dev`/`prod`. -/
def envSpec : VariableSpec := ⟨"env", none, "", ["dev", "prod"], none⟩

def dStep : Step := ⟨some ("directory"), none, none, some ("sub"), none⟩

def cStep : Step := ⟨some ("command"), none, some ("false"), none, none⟩

def fStep : Step := ⟨some ("file"), none, none, some ("x.txt"), none⟩

/-! ### Claim C1 — substitution -/

/-- Claim C1 counterexample: with the mapping a ↦ &#123;&#123;b&#125;&#125;, b ↦ X, the value
substituted for `a` IS re-scanned by the later pass for `b`, so the result
is `X`, not the literal `\x7b\x7bb\x7d\x7d` the claim requires. -/
theorem substitution_rescan_cex :
    substituteVariables ("\x7b\x7ba\x7d\x7d") [("a", "\x7b\x7bb\x7d\x7d"), ("b", "X")] = "X"
    ∧ substituteVariables ("\x7b\x7ba\x7d\x7d") [("a", "\x7b\x7bb\x7d\x7d"), ("b", "X")]
        ≠ "\x7b\x7bb\x7d\x7d" := by
  constructor
  · rfl
  · decide

/-- Claim C1 (amended): substitution is one `str.replace` pass per variable in
mapping order, so the value substituted for the last variable is final
(never re-scanned), and with the single-binding mapping a ↦ &#123;&#123;b&#125;&#125; of the
spec's example the token-like value passes through literally. -/
theorem substitution_last_pass :
    (∀ (text : String) (vars : List (String × String)) (n v : String),
      substituteVariables text (vars ++ [(n, v)]) =
        pyReplace (substituteVariables text vars) (varToken n) v)
    ∧ substituteVariables ("\x7b\x7ba\x7d\x7d") [("a", "\x7b\x7bb\x7d\x7d")] = "\x7b\x7bb\x7d\x7d" := by
  constructor
  · intro text vars n v
    simp [substituteVariables, List.foldl_append]
  · rfl

/-! ### Claim C2 — validation pattern semantics -/

/-- Claim C2 counterexample: with the unanchored pattern `[a-z]+`, the collector
accepts `ab1`, whose prefix `ab` matches but whose remainder `1` does not;
`re.fullmatch` would reject it. -/
theorem validation_prefix_cex :
    collectLoop [vLax] ["ab1"] = .ok ([("v", "ab1")], [])
    ∧ pyMatch (Regex.plus Char.isLower) ("ab1") = true
    ∧ pyFullmatch (Regex.plus Char.isLower) ("ab1") = false := by
  refine ⟨rfl, rfl, rfl⟩

/-- Auxiliary: flattening the `eos`-remainders of a remainder list gives a
non-empty list exactly when some remainder is empty. -/
theorem flatten_eosRems_isEmpty (l : List (List Char)) :
    ((l.map (reRems .eos)).flatten).isEmpty = !(l.any (fun rem => rem.isEmpty)) := by
  induction l with
  | nil => rfl
  | cons rem l ih =>
    by_cases h : rem = []
    · subst h
      simp [reRems]
    · have hb : rem.isEmpty = false := by simpa using h
      have h0 : reRems .eos rem = [] := by simp [reRems, hb]
      rw [List.map_cons, List.flatten_cons, h0, List.nil_append, ih, List.any_cons, hb]
      simp

/-- Claim C2 (amended): the collector checks `validation` with `re.match`, i.e.
prefix semantics; for a pattern ending in the `$` anchor — as in the spec's
own example `^[a-z]+$` — prefix match coincides with full match, and the
collector then rejects `My-App`, re-prompts, and accepts `myapp`. -/
theorem validation_match_semantics :
    (∀ (r : Regex) (s : String), pyMatch (.seq r .eos) s = pyFullmatch r s)
    ∧ collectLoop [vAnchored] ["My-App", "myapp"] = .ok ([("app", "myapp")], []) := by
  constructor
  · intro r s
    simp only [pyMatch, pyFullmatch]
    rw [show reRems (.seq r .eos) s.data = ((reRems r s.data).map (reRems .eos)).flatten from rfl,
      flatten_eosRems_isEmpty, Bool.not_not]
  · rfl

/-! ### Claim C3 — CLI exit status of `init` -/

/-- Claim C3 counterexample: `init nope` against an empty template directory
aborts (the run returns `False`), yet `main` returns normally and the
process exits with status 0, not a failure status. -/
theorem init_exit_zero_cex :
    mainCli store0 ["init", "nope"] [] envOk ("/t") world0 = .ok (some false)
    ∧ exitCode (mainCli store0 ["init", "nope"] [] envOk ("/t") world0) = 0 := by
  refine ⟨rfl, rfl⟩

/-- Claim C3 (amended): `main` discards `execute_template`'s boolean, so every
`init` run whose failure is handled inside `execute_template` (template not
found, missing prerequisite, failing step) still exits with status 0; only
an uncaught exception makes the process exit non-zero. -/
theorem init_exit_ignores_failure (store : TemplateStore) (t : String)
    (inputs : List String) (env : ExecEnv) (cwd : String) (w w' : World)
    (h : executeTemplate store t inputs env cwd w = .ok (false, w')) :
    mainCli store ["init", t] inputs env cwd w = .ok (some false)
    ∧ exitCode (mainCli store ["init", t] inputs env cwd w) = 0 := by
  simp [mainCli, h, exitCode]

/-- A template named `web` that only declares an external prerequisite. -/
def tmplPre : TemplateJson :=
  ⟨some ("web"), none, none, none, some ["xyz-tool"], none, none, none, none⟩

/-- A directory holding only the `web` template. -/
def storePre : TemplateStore := ⟨true, [("web", .ok tmplPre)]⟩

/-- Claim C3 witness: a run aborted by a missing prerequisite still exits 0. -/
theorem init_exit_ignores_failure_w :
    mainCli storePre ["init", "web"] [] envFail ("/t") world0 = .ok (some false)
    ∧ exitCode (mainCli storePre ["init", "web"] [] envFail ("/t") world0) = 0 :=
  init_exit_ignores_failure storePre ("web") [] envFail ("/t") world0 world0 (by rfl)

/-! ### Claim C7 — malformed requested template -/

/-- Claim C7 counterexample: when the requested template file is malformed, the
`JSONDecodeError` is not caught by `execute_template` — the run dies with
an unhandled exception (non-zero exit via the interpreter) instead of the
handled, clearly-messaged abort the claim requires. -/
theorem malformed_template_crash_cex :
    executeTemplate storeBad ("bad") [] envOk ("/t") world0 = .error (.jsonDecode ("boom"))
    ∧ exitCode (mainCli storeBad ["init", "bad"] [] envOk ("/t") world0) = 1 := by
  refine ⟨rfl, rfl⟩

/-- Claim C7 (amended): when the specifically requested template exists but fails
to parse, the run aborts — but by propagating the parse exception uncaught
out of `execute_template` (only `FileNotFoundError` is caught there), so
the CLI terminates with an unhandled-exception traceback and exit status 1
rather than a handled message. -/
theorem malformed_template_propagates (es : List (String × Except String TemplateJson))
    (stem msg : String) (inputs : List String) (env : ExecEnv) (cwd : String) (w : World)
    (h : lookupStore es stem = some (.error msg)) :
    executeTemplate ⟨true, es⟩ stem inputs env cwd w = .error (.jsonDecode msg)
    ∧ exitCode (mainCli ⟨true, es⟩ ["init", stem] inputs env cwd w) = 1 := by
  have hload : loadTemplate ⟨true, es⟩ stem = .error (.jsonDecode msg) := by
    simp [loadTemplate, h]
  refine ⟨?_, ?_⟩
  · simp [executeTemplate, hload]
  · simp [mainCli, executeTemplate, hload, exitCode]

/-- Claim C7 witness: the propagation theorem applied to the malformed store. -/
theorem malformed_template_propagates_w :
    executeTemplate ⟨true, [("bad", Except.error ("boom"))]⟩ ("bad") [] envOk ("/t") world0
        = .error (.jsonDecode ("boom"))
    ∧ exitCode (mainCli ⟨true, [("bad", Except.error ("boom"))]⟩ ["init", "bad"] [] envOk
        ("/t") world0) = 1 :=
  malformed_template_propagates [("bad", Except.error ("boom"))] ("bad") ("boom") [] envOk
    ("/t") world0 (by rfl)

/-! ### Claim C4 — strict step order and fail-fast abort -/

/-- Claim C4: if the steps before `s` all succeed from world `w`, reaching world
`w1`, and `s` then fails, the whole loop returns failure in exactly the
world `w2` left by the failing step: every step after the first failure is
skipped, and nothing done by the earlier steps is rolled back. -/
theorem steps_fail_fast (env : ExecEnv) (vars : List (String × String)) (cur : String)
    (pre : List Step) (s : Step) (post : List Step) (w w1 w2 : World)
    (h1 : runSteps env vars cur pre w = .ok (true, w1))
    (h2 : executeStep env s vars cur w1 = .ok (false, w2)) :
    runSteps env vars cur (pre ++ s :: post) w = .ok (false, w2) := by
  induction pre generalizing w with
  | nil =>
    simp only [runSteps] at h1
    cases h1
    simp only [List.nil_append, runSteps, h2]
  | cons p pre ih =>
    rw [List.cons_append]
    simp only [runSteps] at h1 ⊢
    cases hstep : executeStep env p vars cur w with
    | error e =>
      rw [hstep] at h1
      exact absurd h1 (by simp)
    | ok bw =>
      obtain ⟨b, wmid⟩ := bw
      rw [hstep] at h1
      cases b
      · exact absurd h1 (by simp)
      · exact ih wmid h1

/-- Claim C4 witness: the spec's own scenario `[Directory(ok), Command(exit 1),
File(never-reached)]` — the directory is created and kept, the run reports
failure at the command, and the file from step 3 is never written. -/
theorem steps_fail_fast_w :
    runSteps envFail [] ("/t") [dStep, cStep, fStep] world0 = .ok (false, ⟨["/t", "/t/sub"], []⟩)
    ∧ ("/t/sub" ∈ (["/t", "/t/sub"] : List String))
    ∧ lookupFile ⟨["/t", "/t/sub"], []⟩ (resolvePath ("/t") ("x.txt")) = none :=
  ⟨steps_fail_fast envFail [] ("/t") [dStep] cStep [fStep] world0 ⟨["/t", "/t/sub"], []⟩
      ⟨["/t", "/t/sub"], []⟩ (by rfl) (by rfl),
    by decide, by rfl⟩

/-! ### Claim C5 — collector invariant -/

/-- The acceptance condition under which the prompt loop stores a value and
breaks: non-empty, within `options` when constrained, and matching
`validation` (with the `re.match` semantics the source uses) when given. -/
def acceptsSpec (spec : VariableSpec) (v : String) : Bool :=
  v != "" && (spec.options.isEmpty || spec.options.contains v) &&
    (match spec.validation with
     | some pat => pyMatch pat v
     | none => true)

/-- Any value the per-variable prompt loop returns satisfies the
acceptance condition. -/
theorem collectValue_accepts (spec : VariableSpec) (inputs : List String)
    (v : String) (rest : List String)
    (h : collectValue spec inputs = .ok (v, rest)) : acceptsSpec spec v = true := by
  induction inputs with
  | nil => exact absurd h (by simp [collectValue])
  | cons raw inputs ih =>
    simp only [collectValue] at h
    split at h
    · exact ih h
    · split at h
      · exact ih h
      · next h0 h1 =>
        have e0 : (resolveRaw spec raw == "") = false := by simpa using h0
        have e1 : spec.options = [] ∨ resolveRaw spec raw ∈ spec.options := by
          by_cases hA : spec.options = []
          · exact Or.inl hA
          · right
            by_cases hB : resolveRaw spec raw ∈ spec.options
            · exact hB
            · exact absurd (by simp [hA, hB]) h1
        split at h
        · next pat hval =>
          split at h
          · exact ih h
          · next h2 =>
            have e2 : pyMatch pat (resolveRaw spec raw) = true := by simpa using h2
            cases h
            simp only [acceptsSpec, hval]
            simp [bne, e0, e2]
            exact e1
        · next hval =>
          cases h
          simp only [acceptsSpec, hval]
          simp [bne, e0]
          exact e1

/-- Claim C5: whenever the collection loop returns a mapping, it pairs the specs
with their values one-to-one, every returned value satisfies the spec's
constraints (non-empty, within `options` when given, matching `validation`
when given), and the default stands in only when the stripped raw value is
empty — so a constraint-violating value is never returned. -/
theorem collect_invariant :
    (∀ (specs : List VariableSpec) (inputs : List String)
        (m : List (String × String)) (rest : List String),
      collectLoop specs inputs = .ok (m, rest) →
        List.Forall₂ (fun spec p => spec.name = p.1 ∧ acceptsSpec spec p.2 = true) specs m)
    ∧ (∀ (spec : VariableSpec) (raw : String),
        pyStrip raw ≠ "" → resolveRaw spec raw = pyStrip raw) := by
  constructor
  · intro specs
    induction specs with
    | nil =>
      intro inputs m rest h
      simp only [collectLoop] at h
      cases h
      exact List.Forall₂.nil
    | cons spec specs ih =>
      intro inputs m rest h
      simp only [collectLoop] at h
      split at h
      · exact absurd h (by simp)
      · rename_i v mid hval
        split at h
        · exact absurd h (by simp)
        · rename_i m2 rest2 hloop
          have hacc := collectValue_accepts spec inputs v mid hval
          have htail := ih mid m2 rest2 hloop
          cases h
          exact List.Forall₂.cons ⟨rfl, hacc⟩ htail
  · intro spec raw hne
    simp only [resolveRaw]
    rw [if_neg]
    simp [hne]

/-- Claim C5 witness: on inputs `"", "stage", "dev"` against the `dev`/`prod`
option spec, the loop skips the empty and out-of-options values and
returns `dev`, which satisfies every constraint; and a non-empty stripped
raw value is taken verbatim, not replaced by the default. -/
theorem collect_invariant_w :
    List.Forall₂ (fun spec p => spec.name = p.1 ∧ acceptsSpec spec p.2 = true)
      [envSpec] [("env", "dev")]
    ∧ resolveRaw envSpec ("stage") = pyStrip ("stage") :=
  ⟨collect_invariant.1 [envSpec] ["", "stage", "dev"] [("env", "dev")] [] (by rfl),
    collect_invariant.2 envSpec ("stage") (by decide)⟩

/-! ### Claim C6 — listing templates -/

/-- Claim C6: listing with a missing or empty template directory yields the empty
sequence; the listing is sorted ascending by the `name` key; it returns
exactly the parsable files (tagged with their filename stem), in the sense
of permutation; and a malformed file is skipped without disturbing the
rest of the listing. -/
theorem list_templates_contract :
    (∀ es, listTemplates ⟨false, es⟩ = [])
    ∧ listTemplates ⟨true, []⟩ = []
    ∧ (∀ es, List.Sorted tmplLE (listTemplates ⟨true, es⟩))
    ∧ (∀ es, List.Perm (listTemplates ⟨true, es⟩) (es.filterMap parseEntry))
    ∧ (∀ stem msg es,
        listTemplates ⟨true, (stem, Except.error msg) :: es⟩ = listTemplates ⟨true, es⟩) := by
  refine ⟨?_, ?_, ?_, ?_, ?_⟩
  · intro es
    simp [listTemplates]
  · rfl
  · intro es
    simpa [listTemplates] using List.sorted_insertionSort tmplLE (es.filterMap parseEntry)
  · intro es
    simpa [listTemplates] using List.perm_insertionSort tmplLE (es.filterMap parseEntry)
  · intro stem msg es
    simp [listTemplates, List.filterMap_cons, parseEntry]

/-! ### Claim C8 — command step failure contract -/

/-- Claim C8: a command step never propagates an exception: whatever the spawned
process does — exit with any status, time out, or fail to launch — the step
returns a boolean, leaves the modelled world untouched, and succeeds
exactly when the process exits with status zero. -/
theorem command_step_contract (env : ExecEnv) (step : Step) (c : String)
    (vars : List (String × String)) (cur : String) (w : World)
    (htype : step.type.getD ("command") = "command") (hcmd : step.command = some c) :
    executeStep env step vars cur w =
      .ok ((match env.run (substituteVariables c vars) with
            | .exited code _ _ => code == 0
            | _ => false), w) := by
  simp only [executeStep, htype, hcmd]
  cases hrun : env.run (substituteVariables c vars) with
  | exited code out err =>
    by_cases hc : code = 0
    · simp [hc]
    · simp [hc]
  | timeout => simp
  | exc msg => simp

/-- Claim C8 witness: a timed-out command is reported as a plain step failure. -/
theorem command_step_contract_w :
    executeStep envTO cStep [] ("/t") world0 = .ok (false, world0) := by
  have h := command_step_contract envTO cStep ("false") [] ("/t") world0 (by rfl) (by rfl)
  simpa using h

/-! ### Claim C9 — unknown step types -/

/-- Claim C9: a step whose type tag is none of `command`, `directory`, `file`
warns and succeeds as a no-op: the world is unchanged, no exception is
raised, and the loop can continue with later steps. -/
theorem unknown_step_noop (env : ExecEnv) (step : Step) (vars : List (String × String))
    (cur : String) (w : World) (t : String)
    (htype : step.type = some t)
    (h1 : t ≠ "command") (h2 : t ≠ "directory") (h3 : t ≠ "file") :
    executeStep env step vars cur w = .ok (true, w) := by
  simp [executeStep, htype, h1, h2, h3]

/-- A step with an unrecognized type tag. -/
def wStep : Step := ⟨some ("weird"), none, none, none, none⟩

/-- Claim C9 witness: the no-op theorem applied to a `weird` step. -/
theorem unknown_step_noop_w :
    executeStep envOk wStep [] ("/t") world0 = .ok (true, world0) :=
  unknown_step_noop envOk wStep [] ("/t") world0 ("weird") (by rfl)
    (by decide) (by decide) (by decide)

/-! ### Claim C10 — file step with absent `content` -/

/-- Substituting into the empty string yields the empty string. -/
theorem substitute_empty (vars : List (String × String)) :
    substituteVariables ("") vars = "" := by
  induction vars with
  | nil => rfl
  | cons nv vars ih => exact ih

/-- Claim C10: a file step with no `content` field writes the empty string: it
creates the missing ancestor directories of the target, writes (or
overwrites) the file with empty content, and returns success. -/
theorem file_step_default_content (env : ExecEnv) (descr : Option String) (p : String)
    (vars : List (String × String)) (cur : String) (w w' : World)
    (hw : writeFileW w (resolvePath cur (substituteVariables p vars)) ("") = some w') :
    executeStep env ⟨some ("file"), descr, none, some p, none⟩ vars cur w = .ok (true, w')
    ∧ lookupFile w' (resolvePath cur (substituteVariables p vars)) = some ("")
    ∧ ((pathPrefixes (parentOf (resolvePath cur (substituteVariables p vars)))).all
        (fun q => w'.dirs.contains q)) = true := by
  refine ⟨?_, ?_, ?_⟩
  · simp only [executeStep, Option.getD_some, Option.getD_none, substitute_empty]
    simp [hw]
  · simp only [writeFileW] at hw
    split at hw
    · exact absurd hw (by simp)
    · next w2 hmk =>
      split at hw
      · exact absurd hw (by simp)
      · cases hw
        simp [lookupFile]
  · simp only [writeFileW] at hw
    by_cases hpar : (parentOf (resolvePath cur (substituteVariables p vars)) == "") = true
    · rw [if_pos hpar] at hw
      have hps : parentOf (resolvePath cur (substituteVariables p vars)) = "" := by
        simpa using hpar
      rw [hps]
      simp [pathPrefixes, splitSegs, joinSegs]
    · rw [if_neg hpar] at hw
      simp only [mkdirParents] at hw
      split at hw
      · exact absurd hw (by simp)
      · rename_i wmid heqmid
        split at hw
        · exact absurd hw (by simp)
        · cases hw
          split at heqmid
          · exact absurd heqmid (by simp)
          · cases heqmid
            simp only [List.all_eq_true]
            intro q hq
            have hmem : q ∈ pathPrefixes (parentOf (resolvePath cur (substituteVariables p vars))) := by
              simpa using hq
            simp
            exact Or.inl hmem

/-- Claim C10 witness: writing `sub/file.txt` with no `content` into a world
where the file already exists with other content creates the ancestor
directories, overwrites the file with the empty string, and succeeds. -/
theorem file_step_default_content_w :
    executeStep envOk ⟨some ("file"), none, none, some ("sub/file.txt"), none⟩ [] ("/t")
        ⟨[], [("/t/sub/file.txt", "old")]⟩ =
      .ok (true, ⟨["/t", "/t/sub"], [("/t/sub/file.txt", "")]⟩)
    ∧ lookupFile ⟨["/t", "/t/sub"], [("/t/sub/file.txt", "")]⟩
        (resolvePath ("/t") (substituteVariables ("sub/file.txt") [])) = some ("")
    ∧ ((pathPrefixes (parentOf (resolvePath ("/t") (substituteVariables ("sub/file.txt") [])))).all
        (fun q => (["/t", "/t/sub"] : List String).contains q)) = true :=
  file_step_default_content envOk none ("sub/file.txt") [] ("/t")
    ⟨[], [("/t/sub/file.txt", "old")]⟩ ⟨["/t", "/t/sub"], [("/t/sub/file.txt", "")]⟩ (by rfl)
